import Mathlib

/-!
Shallow embedding of the windowed rate-limit / admission-control core of the
git-diff-ai-reporter extension: the limit catalog and pure checks of
`src/limits.ts`, and the stateful usage manager of `src/groqUsageManager.ts`.

Machine integers of the source (JS numbers holding token counts and Unix
millisecond timestamps, all non-negative in every reachable state) are
modelled as `Nat`; `Date.now()` and the wall-clock-dependent
`getNextMidnight()` are ambient inputs of the TypeScript methods, so every
embedded operation takes the current time `now` and the next-midnight
timestamp `nextMidnight` as explicit arguments.  The VS Code
`globalState.get("groqUsage")` storage cell, which may be empty, is an
`Option GroqUsageState` threaded through the operations.
-/

/-- `ModelLimits` of `src/limits.ts`: the four ceilings (requests per
minute, requests per day, tokens per minute, tokens per day). -/
structure ModelLimits where
  rpm : Nat
  rpd : Nat
  tpm : Nat
  tpd : Nat
deriving Repr, DecidableEq

/-- The `MODEL_LIMITS` record of `src/limits.ts`, as the lookup it is used
for: each configured model id maps to its entry, anything else to none. -/
def MODEL_LIMITS (model : String) : Option ModelLimits :=
  if model = "llama-3.3-70b-versatile" then
    some { rpm := 30, rpd := 14400, tpm := 6000, tpd := 500000 }
  else if model = "llama-3.1-70b-versatile" then
    some { rpm := 30, rpd := 14400, tpm := 6000, tpd := 500000 }
  else if model = "llama-3.1-8b-instant" then
    some { rpm := 30, rpd := 14400, tpm := 20000, tpd := 1000000 }
  else if model = "llama3-70b-8192" then
    some { rpm := 30, rpd := 14400, tpm := 6000, tpd := 500000 }
  else if model = "llama3-8b-8192" then
    some { rpm := 30, rpd := 14400, tpm := 20000, tpd := 1000000 }
  else if model = "mixtral-8x7b-32768" then
    some { rpm := 30, rpd := 14400, tpm := 5000, tpd := 500000 }
  else if model = "gemma-7b-it" then
    some { rpm := 30, rpd := 14400, tpm := 15000, tpd := 500000 }
  else if model = "gemma2-9b-it" then
    some { rpm := 30, rpd := 14400, tpm := 15000, tpd := 500000 }
  else none

/-- The default entry returned literally by `getLimitsForModel` when the
model id is not configured. -/
def defaultLimits : ModelLimits := { rpm := 30, rpd := 14400, tpm := 6000, tpd := 500000 }

/-- `getLimitsForModel` of `src/limits.ts`: the configured entry, or the
default entry (after a console warning, which has no effect on state). -/
def getLimitsForModel (model : String) : ModelLimits :=
  match MODEL_LIMITS model with
  | some limits => limits
  | none => defaultLimits

/-- `GroqUsageState` of `src/groqUsageManager.ts`: the live quota record. -/
structure GroqUsageState where
  model : String
  tokensUsedThisMinute : Nat
  tokensUsedToday : Nat
  requestsUsedThisMinute : Nat
  requestsUsedToday : Nat
  minuteResetAt : Nat
  dayResetAt : Nat
deriving Repr, DecidableEq

/-- `isRateLimited` of `src/limits.ts`: true iff any of the four counters
has reached or exceeded its ceiling (all four comparisons are `>=`, OR'd). -/
def isRateLimited (usage : GroqUsageState) (limits : ModelLimits) : Bool :=
  decide (usage.tokensUsedThisMinute ≥ limits.tpm) ||
  decide (usage.tokensUsedToday ≥ limits.tpd) ||
  decide (usage.requestsUsedThisMinute ≥ limits.rpm) ||
  decide (usage.requestsUsedToday ≥ limits.rpd)

/-- `Math.ceil(x / 1000)` on an integer number of milliseconds `x`
(for the positive divisor 1000, the ceiling is the negated floor — i.e.
Euclidean — division of the negation). -/
def ceilDiv1000 (x : Int) : Int := -((-x) / 1000)

/-- `getSecondsUntilReset` of `src/limits.ts`: the minimum of the two
per-window times-to-reset, each one `Math.max(0, Math.ceil((resetAt - now) / 1000))`. -/
def getSecondsUntilReset (minuteResetAt dayResetAt now : Nat) : Int :=
  let secondsUntilMinuteReset := max 0 (ceilDiv1000 ((minuteResetAt : Int) - (now : Int)))
  let secondsUntilDayReset := max 0 (ceilDiv1000 ((dayResetAt : Int) - (now : Int)))
  min secondsUntilMinuteReset secondsUntilDayReset

/-- Body of `GroqUsageManager.checkAndResetCounters` on a present state:
two independent window checks against `now` (`getNextMidnight()`'s value is
the argument `nextMidnight`). -/
def checkAndResetCounters (state : GroqUsageState) (now nextMidnight : Nat) : GroqUsageState :=
  let s1 :=
    if state.minuteResetAt ≤ now then
      { state with tokensUsedThisMinute := 0, requestsUsedThisMinute := 0,
                   minuteResetAt := now + 60000 }
    else state
  if s1.dayResetAt ≤ now then
    { s1 with tokensUsedToday := 0, requestsUsedToday := 0, dayResetAt := nextMidnight }
  else s1

/-- `GroqUsageManager.checkAndResetCounters` on the storage cell: an absent
state returns unchanged (early return). -/
def checkAndResetCountersOpt (stored : Option GroqUsageState) (now nextMidnight : Nat) :
    Option GroqUsageState :=
  match stored with
  | none => none
  | some state => some (checkAndResetCounters state now nextMidnight)

/-- `GroqUsageManager.getUsageState`: a plain read of the storage cell,
with no reconciliation. -/
def getUsageState (stored : Option GroqUsageState) : Option GroqUsageState := stored

/-- `GroqUsageManager.recordUsage`: reconcile first, then add `totalTokens`
to both token counters and 1 to both request counters; no-op when the
storage cell is empty.  `promptTokens` and `completionTokens` are accepted
and unused, as in the source. -/
def recordUsage (stored : Option GroqUsageState) (now nextMidnight : Nat)
    (promptTokens completionTokens totalTokens : Nat) : Option GroqUsageState :=
  match checkAndResetCountersOpt stored now nextMidnight with
  | none => none
  | some state => some { state with
      tokensUsedThisMinute := state.tokensUsedThisMinute + totalTokens,
      tokensUsedToday := state.tokensUsedToday + totalTokens,
      requestsUsedThisMinute := state.requestsUsedThisMinute + 1,
      requestsUsedToday := state.requestsUsedToday + 1 }

/-- `GroqUsageManager.isCurrentlyRateLimited`: reconcile first, then check
the reconciled counters against the catalog entry of the state's model;
false when the storage cell is empty. -/
def isCurrentlyRateLimited (stored : Option GroqUsageState) (now nextMidnight : Nat) : Bool :=
  match checkAndResetCountersOpt stored now nextMidnight with
  | none => false
  | some state => isRateLimited state (getLimitsForModel state.model)

/-- `GroqUsageManager.getSecondsUntilNextReset`: reads the stored
timestamps directly — it does not reconcile; 0 when the cell is empty. -/
def getSecondsUntilNextReset (stored : Option GroqUsageState) (now : Nat) : Int :=
  match stored with
  | none => 0
  | some state => getSecondsUntilReset state.minuteResetAt state.dayResetAt now

/-- `GroqUsageManager.setModel`: overwrite the `model` field only; no-op
when the storage cell is empty. -/
def setModel (stored : Option GroqUsageState) (model : String) : Option GroqUsageState :=
  match stored with
  | none => none
  | some state => some { state with model := model }

/-- The `initialState` literal of `GroqUsageManager.initializeUsageState`:
the fresh zeroed state anchored at `now`. -/
def initialState (now nextMidnight : Nat) : GroqUsageState :=
  { model := "llama-3.3-70b-versatile",
    tokensUsedThisMinute := 0, tokensUsedToday := 0,
    requestsUsedThisMinute := 0, requestsUsedToday := 0,
    minuteResetAt := now + 60000, dayResetAt := nextMidnight }

/-- `GroqUsageManager.initializeUsageState`: when the cell is empty, store
the fresh zeroed state anchored at `now`; otherwise reconcile the loaded
state. -/
def initializeUsageState (stored : Option GroqUsageState) (now nextMidnight : Nat) :
    Option GroqUsageState :=
  match stored with
  | none => some (initialState now nextMidnight)
  | some _ => checkAndResetCountersOpt stored now nextMidnight

/-- `GroqUsageManager.enforceLimitsAndWaitIfNeeded`: reconcile, and when
over limit compute the wait `w = getSecondsUntilReset(...)`, sleep `w`
seconds (the clock advances to exactly `now + 1000 * w`), then reconcile
once more (single-shot — no re-check loop).  `nmAfter` is
`getNextMidnight()`'s value at the post-sleep reconcile. -/
def enforceLimitsAndWaitIfNeeded (stored : Option GroqUsageState) (now nextMidnight nmAfter : Nat) :
    Option GroqUsageState :=
  match checkAndResetCountersOpt stored now nextMidnight with
  | none => none
  | some state =>
    if isRateLimited state (getLimitsForModel state.model) then
      let secondsToWait := getSecondsUntilReset state.minuteResetAt state.dayResetAt now
      some (checkAndResetCounters state (now + 1000 * secondsToWait.toNat) nmAfter)
    else some state

/-- Shared description of one `checkAndResetCounters` step: each field of
the result depends only on its own window's comparison with `now`. -/
theorem checkAndResetCounters_eq (state : GroqUsageState) (now nextMidnight : Nat) :
    checkAndResetCounters state now nextMidnight =
      { model := state.model,
        tokensUsedThisMinute :=
          if state.minuteResetAt ≤ now then 0 else state.tokensUsedThisMinute,
        tokensUsedToday :=
          if state.dayResetAt ≤ now then 0 else state.tokensUsedToday,
        requestsUsedThisMinute :=
          if state.minuteResetAt ≤ now then 0 else state.requestsUsedThisMinute,
        requestsUsedToday :=
          if state.dayResetAt ≤ now then 0 else state.requestsUsedToday,
        minuteResetAt :=
          if state.minuteResetAt ≤ now then now + 60000 else state.minuteResetAt,
        dayResetAt :=
          if state.dayResetAt ≤ now then nextMidnight else state.dayResetAt } := by
  unfold checkAndResetCounters
  by_cases h1 : state.minuteResetAt ≤ now <;> by_cases h2 : state.dayResetAt ≤ now <;>
    simp [h1, h2]

/-- C1: `isRateLimited` is true iff at least one of the four counters has
reached or exceeded its corresponding ceiling (tpm, tpd, rpm, rpd); in
particular a state whose only nonzero counter is `requestsUsedToday`, equal
to the day request ceiling of its model's catalog entry, is rate limited. -/
theorem C1_isRateLimited_iff_any_counter_at_ceiling :
    (∀ (usage : GroqUsageState) (limits : ModelLimits),
        isRateLimited usage limits = true ↔
          limits.tpm ≤ usage.tokensUsedThisMinute ∨
          limits.tpd ≤ usage.tokensUsedToday ∨
          limits.rpm ≤ usage.requestsUsedThisMinute ∨
          limits.rpd ≤ usage.requestsUsedToday) ∧
    isRateLimited
      { model := "llama-3.3-70b-versatile", tokensUsedThisMinute := 0, tokensUsedToday := 0,
        requestsUsedThisMinute := 0, requestsUsedToday := 14400,
        minuteResetAt := 1060000, dayResetAt := 4600000 }
      (getLimitsForModel "llama-3.3-70b-versatile") = true := by
  constructor
  · intro usage limits
    simp only [isRateLimited, Bool.or_eq_true, decide_eq_true_eq, ge_iff_le]
    tauto
  · decide

/-- The wait-time computation as the specification words it: the smaller of
the two per-window ceilings of the millisecond difference over one second,
floored at 0. -/
def secondsUntilCapacitySpec (minuteResetAt dayResetAt now : Nat) : Int :=
  max 0 (min (ceilDiv1000 ((minuteResetAt : Int) - (now : Int)))
             (ceilDiv1000 ((dayResetAt : Int) - (now : Int))))

/-- C5: `getSecondsUntilReset` equals the smaller of the two rounded-up
seconds-to-reset values, floored at 0; with the minute reset 10 seconds
away and the day reset 3600 seconds away it returns 10, not 3600. -/
theorem C5_getSecondsUntilReset_eq_spec :
    (∀ minuteResetAt dayResetAt now : Nat,
        getSecondsUntilReset minuteResetAt dayResetAt now =
          secondsUntilCapacitySpec minuteResetAt dayResetAt now) ∧
    getSecondsUntilReset 1010000 4600000 1000000 = 10 := by
  refine ⟨?_, by decide⟩
  intro m d now
  simp only [getSecondsUntilReset, secondsUntilCapacitySpec, ceilDiv1000]
  omega

/-- C6: `getLimitsForModel` is total — a configured model id yields its
catalog entry, any other id yields the fixed default entry; in particular
the id "unknown-id" yields the documented default without failing. -/
theorem C6_getLimitsForModel_total_lookup :
    (∀ model : String, MODEL_LIMITS model = none → getLimitsForModel model = defaultLimits) ∧
    (∀ (model : String) (entry : ModelLimits),
        MODEL_LIMITS model = some entry → getLimitsForModel model = entry) ∧
    getLimitsForModel "unknown-id" =
      { rpm := 30, rpd := 14400, tpm := 6000, tpd := 500000 } := by
  refine ⟨?_, ?_, by decide⟩
  · intro model h
    simp [getLimitsForModel, h]
  · intro model entry h
    simp [getLimitsForModel, h]

/-- Witness for C6 at the unconfigured id "unknown-id" and the configured
id "mixtral-8x7b-32768". -/
theorem C6_witness :
    getLimitsForModel "unknown-id" = defaultLimits ∧
    getLimitsForModel "mixtral-8x7b-32768" =
      { rpm := 30, rpd := 14400, tpm := 5000, tpd := 500000 } :=
  ⟨C6_getLimitsForModel_total_lookup.1 "unknown-id" (by decide),
   C6_getLimitsForModel_total_lookup.2.1 "mixtral-8x7b-32768"
     { rpm := 30, rpd := 14400, tpm := 5000, tpd := 500000 } (by decide)⟩

/-- C8: `setModel` on a present state overwrites exactly the `model` field;
the record-update form states that all counters and both reset timestamps
are those of the input state. -/
theorem C8_setModel_touches_only_model :
    ∀ (state : GroqUsageState) (id : String),
      setModel (some state) id = some { state with model := id } := by
  intro state id
  rfl

/-- C10: with an absent stored state every public operation degrades to a
harmless no-op: recordUsage and setModel store nothing,
isCurrentlyRateLimited answers false, getSecondsUntilNextReset answers 0. -/
theorem C10_absent_state_degrades_to_noop :
    ∀ (now nextMidnight p c t : Nat) (id : String),
      recordUsage none now nextMidnight p c t = none ∧
      setModel none id = none ∧
      isCurrentlyRateLimited none now nextMidnight = false ∧
      getSecondsUntilNextReset none now = 0 := by
  intro now nextMidnight p c t id
  exact ⟨rfl, rfl, rfl, rfl⟩

/-- C3: `checkAndResetCounters` treats the two windows independently —
each minute field of the result is reset exactly when `now` has reached
`minuteResetAt` (counters to 0, timestamp to `now + 60000`), each day field
exactly when `now` has reached `dayResetAt` (counters to 0, timestamp to
the next-midnight value), and the model is unchanged; so a state with an
elapsed minute window and a live day window has only its minute fields
changed, and vice versa. -/
theorem C3_checkAndResetCounters_windows_independent :
    ∀ (state : GroqUsageState) (now nextMidnight : Nat),
      (checkAndResetCounters state now nextMidnight).tokensUsedThisMinute
          = (if state.minuteResetAt ≤ now then 0 else state.tokensUsedThisMinute) ∧
      (checkAndResetCounters state now nextMidnight).requestsUsedThisMinute
          = (if state.minuteResetAt ≤ now then 0 else state.requestsUsedThisMinute) ∧
      (checkAndResetCounters state now nextMidnight).minuteResetAt
          = (if state.minuteResetAt ≤ now then now + 60000 else state.minuteResetAt) ∧
      (checkAndResetCounters state now nextMidnight).tokensUsedToday
          = (if state.dayResetAt ≤ now then 0 else state.tokensUsedToday) ∧
      (checkAndResetCounters state now nextMidnight).requestsUsedToday
          = (if state.dayResetAt ≤ now then 0 else state.requestsUsedToday) ∧
      (checkAndResetCounters state now nextMidnight).dayResetAt
          = (if state.dayResetAt ≤ now then nextMidnight else state.dayResetAt) ∧
      (checkAndResetCounters state now nextMidnight).model = state.model := by
  intro state now nextMidnight
  rw [checkAndResetCounters_eq]
  exact ⟨rfl, rfl, rfl, rfl, rfl, rfl, rfl⟩

/-- C4: `recordUsage` reconciles first and then adds `totalTokens` to both
token counters and one to both request counters; across two calls with no
reset boundary in between every counter accumulates and never decreases —
recording u then v units yields exactly u + v added to each token counter. -/
theorem C4_recordUsage_accumulates :
    ∀ (state : GroqUsageState) (now1 now2 nm1 nm2 p1 c1 p2 c2 u v : Nat),
      now1 < state.minuteResetAt → now1 < state.dayResetAt →
      now2 < state.minuteResetAt → now2 < state.dayResetAt →
      recordUsage (some state) now1 nm1 p1 c1 u
        = some { state with
            tokensUsedThisMinute := state.tokensUsedThisMinute + u,
            tokensUsedToday := state.tokensUsedToday + u,
            requestsUsedThisMinute := state.requestsUsedThisMinute + 1,
            requestsUsedToday := state.requestsUsedToday + 1 } ∧
      recordUsage (recordUsage (some state) now1 nm1 p1 c1 u) now2 nm2 p2 c2 v
        = some { state with
            tokensUsedThisMinute := state.tokensUsedThisMinute + u + v,
            tokensUsedToday := state.tokensUsedToday + u + v,
            requestsUsedThisMinute := state.requestsUsedThisMinute + 1 + 1,
            requestsUsedToday := state.requestsUsedToday + 1 + 1 } := by
  intro state now1 now2 nm1 nm2 p1 c1 p2 c2 u v h1 h2 h3 h4
  have hm1 : ¬ state.minuteResetAt ≤ now1 := by omega
  have hd1 : ¬ state.dayResetAt ≤ now1 := by omega
  have hm2 : ¬ state.minuteResetAt ≤ now2 := by omega
  have hd2 : ¬ state.dayResetAt ≤ now2 := by omega
  have e1 : checkAndResetCounters state now1 nm1 = state := by
    rw [checkAndResetCounters_eq]
    simp [hm1, hd1]
  have r1 : recordUsage (some state) now1 nm1 p1 c1 u
      = some { state with
          tokensUsedThisMinute := state.tokensUsedThisMinute + u,
          tokensUsedToday := state.tokensUsedToday + u,
          requestsUsedThisMinute := state.requestsUsedThisMinute + 1,
          requestsUsedToday := state.requestsUsedToday + 1 } := by
    simp [recordUsage, checkAndResetCountersOpt, e1]
  refine ⟨r1, ?_⟩
  rw [r1]
  have e2 : checkAndResetCounters
      { state with
          tokensUsedThisMinute := state.tokensUsedThisMinute + u,
          tokensUsedToday := state.tokensUsedToday + u,
          requestsUsedThisMinute := state.requestsUsedThisMinute + 1,
          requestsUsedToday := state.requestsUsedToday + 1 } now2 nm2
      = { state with
          tokensUsedThisMinute := state.tokensUsedThisMinute + u,
          tokensUsedToday := state.tokensUsedToday + u,
          requestsUsedThisMinute := state.requestsUsedThisMinute + 1,
          requestsUsedToday := state.requestsUsedToday + 1 } := by
    rw [checkAndResetCounters_eq]
    simp [hm2, hd2]
  simp [recordUsage, checkAndResetCountersOpt, e2]

/-- Witness for C4: starting from the fresh zeroed state, recording 5
tokens then 3 tokens (both before any reset boundary) yields minute- and
day-token counters of exactly 8 and request counters of exactly 2. -/
theorem C4_witness :
    recordUsage (recordUsage (some (initialState 0 90000000)) 1 70000000 10 20 5) 2 70000000 1 2 3
      = some { model := "llama-3.3-70b-versatile", tokensUsedThisMinute := 8,
               tokensUsedToday := 8, requestsUsedThisMinute := 2, requestsUsedToday := 2,
               minuteResetAt := 60000, dayResetAt := 90000000 } := by
  have h := (C4_recordUsage_accumulates (initialState 0 90000000) 1 2 70000000 70000000
      10 20 1 2 5 3 (by decide) (by decide) (by decide) (by decide)).2
  rw [h]
  decide

/-- C9: initializeUsageState creates the documented fresh state when the
cell is empty; on a loaded state with an elapsed minute window (here at
least 5 minutes past) and a live day window it zeroes the minute counters
and re-anchors the minute reset at now + 60 seconds; and on a loaded state
whose windows are both live it changes nothing (idempotence). -/
theorem C9_initializeUsageState_fresh_reload_idempotent :
    ∀ (state : GroqUsageState) (now nextMidnight : Nat),
      initializeUsageState none now nextMidnight
        = some { model := "llama-3.3-70b-versatile", tokensUsedThisMinute := 0,
                 tokensUsedToday := 0, requestsUsedThisMinute := 0, requestsUsedToday := 0,
                 minuteResetAt := now + 60000, dayResetAt := nextMidnight } ∧
      (state.minuteResetAt + 300000 ≤ now → now < state.dayResetAt →
        initializeUsageState (some state) now nextMidnight
          = some { state with
              tokensUsedThisMinute := 0, requestsUsedThisMinute := 0,
              minuteResetAt := now + 60000 }) ∧
      (now < state.minuteResetAt → now < state.dayResetAt →
        initializeUsageState (some state) now nextMidnight = some state) := by
  intro state now nextMidnight
  refine ⟨rfl, ?_, ?_⟩
  · intro h1 h2
    have hm : state.minuteResetAt ≤ now := by omega
    have hd : ¬ state.dayResetAt ≤ now := by omega
    simp [initializeUsageState, checkAndResetCountersOpt, checkAndResetCounters_eq, hm, hd]
  · intro h1 h2
    have hm : ¬ state.minuteResetAt ≤ now := by omega
    have hd : ¬ state.dayResetAt ≤ now := by omega
    simp [initializeUsageState, checkAndResetCountersOpt, checkAndResetCounters_eq, hm, hd]

/-- Witness for C9: a persisted state whose minute window elapsed 5 minutes
ago is reloaded with zeroed minute counters and minuteResetAt = now + 60s,
day fields untouched. -/
theorem C9_witness :
    initializeUsageState
        (some { model := "llama-3.3-70b-versatile", tokensUsedThisMinute := 123,
                tokensUsedToday := 456, requestsUsedThisMinute := 7, requestsUsedToday := 8,
                minuteResetAt := 0, dayResetAt := 1000000000 }) 300000 50000000
      = some { model := "llama-3.3-70b-versatile", tokensUsedThisMinute := 0,
               tokensUsedToday := 456, requestsUsedThisMinute := 0, requestsUsedToday := 8,
               minuteResetAt := 360000, dayResetAt := 1000000000 } := by
  have h := (C9_initializeUsageState_fresh_reload_idempotent
      { model := "llama-3.3-70b-versatile", tokensUsedThisMinute := 123,
        tokensUsedToday := 456, requestsUsedThisMinute := 7, requestsUsedToday := 8,
        minuteResetAt := 0, dayResetAt := 1000000000 } 300000 50000000).2.1
      (by decide) (by decide)
  rw [h]

/-- C7 as frozen is false on the code: getSecondsUntilNextReset does not
reconcile first.  On a stored state whose minute window elapsed long ago it
answers 0, while the same query after one reconciliation answers 60; and
getUsageState hands the caller the stale snapshot unchanged, minute
counters of the elapsed window included. -/
theorem C7_counterexample :
    getSecondsUntilNextReset
        (some { model := "llama-3.3-70b-versatile", tokensUsedThisMinute := 5,
                tokensUsedToday := 5, requestsUsedThisMinute := 1, requestsUsedToday := 1,
                minuteResetAt := 0, dayResetAt := 1000000000 }) 1000000 = 0 ∧
    getSecondsUntilNextReset
        (checkAndResetCountersOpt
          (some { model := "llama-3.3-70b-versatile", tokensUsedThisMinute := 5,
                  tokensUsedToday := 5, requestsUsedThisMinute := 1, requestsUsedToday := 1,
                  minuteResetAt := 0, dayResetAt := 1000000000 }) 1000000 1000000000)
        1000000 = 60 ∧
    getUsageState
        (some { model := "llama-3.3-70b-versatile", tokensUsedThisMinute := 5,
                tokensUsedToday := 5, requestsUsedThisMinute := 1, requestsUsedToday := 1,
                minuteResetAt := 0, dayResetAt := 1000000000 })
      = some { model := "llama-3.3-70b-versatile", tokensUsedThisMinute := 5,
               tokensUsedToday := 5, requestsUsedThisMinute := 1, requestsUsedToday := 1,
               minuteResetAt := 0, dayResetAt := 1000000000 } := by
  refine ⟨by decide, by decide, rfl⟩

/-- C7 amended: isCurrentlyRateLimited and recordUsage do reconcile before
reading or incrementing counters — on a state whose minute window has
elapsed (day window live) they use zeroed minute counters and the fresh
minute timestamp, never the stale ones — but getSecondsUntilNextReset and
getUsageState read the stored record directly, without reconciling. -/
theorem C7_amended_only_check_and_record_reconcile :
    ∀ (state : GroqUsageState) (now nextMidnight p c t : Nat),
      (state.minuteResetAt ≤ now → now < state.dayResetAt →
        isCurrentlyRateLimited (some state) now nextMidnight
          = isRateLimited
              { state with
                  tokensUsedThisMinute := 0, requestsUsedThisMinute := 0,
                  minuteResetAt := now + 60000 }
              (getLimitsForModel state.model) ∧
        recordUsage (some state) now nextMidnight p c t
          = some { state with
              tokensUsedThisMinute := t,
              tokensUsedToday := state.tokensUsedToday + t,
              requestsUsedThisMinute := 1,
              requestsUsedToday := state.requestsUsedToday + 1,
              minuteResetAt := now + 60000 }) ∧
      getSecondsUntilNextReset (some state) now
        = getSecondsUntilReset state.minuteResetAt state.dayResetAt now ∧
      getUsageState (some state) = some state := by
  intro state now nextMidnight p c t
  refine ⟨?_, rfl, rfl⟩
  intro hm hd'
  have hd : ¬ state.dayResetAt ≤ now := by omega
  constructor
  · simp [isCurrentlyRateLimited, checkAndResetCountersOpt, checkAndResetCounters_eq, hm, hd]
  · simp [recordUsage, checkAndResetCountersOpt, checkAndResetCounters_eq, hm, hd]

/-- Witness for the amended C7: recording 9 tokens on a state whose minute
window elapsed discards the stale minute counters (5 tokens, 1 request)
rather than adding to them. -/
theorem C7_witness :
    recordUsage
        (some { model := "llama-3.3-70b-versatile", tokensUsedThisMinute := 5,
                tokensUsedToday := 5, requestsUsedThisMinute := 1, requestsUsedToday := 1,
                minuteResetAt := 0, dayResetAt := 1000000000 }) 1000000 1000000000 1 2 9
      = some { model := "llama-3.3-70b-versatile", tokensUsedThisMinute := 9,
               tokensUsedToday := 14, requestsUsedThisMinute := 1, requestsUsedToday := 2,
               minuteResetAt := 1060000, dayResetAt := 1000000000 } := by
  have h := ((C7_amended_only_check_and_record_reconcile
      { model := "llama-3.3-70b-versatile", tokensUsedThisMinute := 5,
        tokensUsedToday := 5, requestsUsedThisMinute := 1, requestsUsedToday := 1,
        minuteResetAt := 0, dayResetAt := 1000000000 } 1000000 1000000000 1 2 9).1
      (by decide) (by decide)).2
  rw [h]

/-- C2 as frozen is false on the code: with only the day token ceiling
breached (tokensUsedToday = tpd = 500000), the minute reset 10 seconds away
and the day reset an hour away, the computed wait is w = 10 seconds, yet
after the clock advances by w and a reconciliation runs the state is still
rate limited — the single-shot wait under-estimates. -/
theorem C2_counterexample :
    isRateLimited
        { model := "llama-3.3-70b-versatile", tokensUsedThisMinute := 0,
          tokensUsedToday := 500000, requestsUsedThisMinute := 0, requestsUsedToday := 0,
          minuteResetAt := 1010000, dayResetAt := 4600000 }
        (getLimitsForModel "llama-3.3-70b-versatile") = true ∧
    getSecondsUntilReset 1010000 4600000 1000000 = 10 ∧
    isRateLimited
        (checkAndResetCounters
          { model := "llama-3.3-70b-versatile", tokensUsedThisMinute := 0,
            tokensUsedToday := 500000, requestsUsedThisMinute := 0, requestsUsedToday := 0,
            minuteResetAt := 1010000, dayResetAt := 4600000 }
          (1000000 + 1000 * (getSecondsUntilReset 1010000 4600000 1000000).toNat) 90000000)
        (getLimitsForModel "llama-3.3-70b-versatile") = true := by
  refine ⟨by decide, by decide, by decide⟩

/-- C2 amended: the computed wait w is sufficient whenever both day
counters are strictly below their ceilings and the minute reset is not
later than the day reset (the minute ceilings being positive): after the
clock advances by w seconds and a reconciliation runs the state is no
longer rate limited.  When only a day ceiling is breached while the minute
reset is sooner, the wait can under-estimate (see the counterexample). -/
theorem C2_wait_sufficient_for_minute_breach :
    ∀ (state : GroqUsageState) (now nmAfter : Nat),
      isRateLimited state (getLimitsForModel state.model) = true →
      state.minuteResetAt ≤ state.dayResetAt →
      state.tokensUsedToday < (getLimitsForModel state.model).tpd →
      state.requestsUsedToday < (getLimitsForModel state.model).rpd →
      0 < (getLimitsForModel state.model).tpm →
      0 < (getLimitsForModel state.model).rpm →
      isRateLimited
        (checkAndResetCounters state
          (now + 1000 * (getSecondsUntilReset state.minuteResetAt state.dayResetAt now).toNat)
          nmAfter)
        (getLimitsForModel state.model) = false := by
  intro state now nmAfter h0 h1 h2 h3 h4 h5
  have hmle : state.minuteResetAt
      ≤ now + 1000 * (getSecondsUntilReset state.minuteResetAt state.dayResetAt now).toNat := by
    simp only [getSecondsUntilReset, ceilDiv1000]
    omega
  rw [checkAndResetCounters_eq]
  by_cases hd : state.dayResetAt
      ≤ now + 1000 * (getSecondsUntilReset state.minuteResetAt state.dayResetAt now).toNat
  · simp only [isRateLimited, if_pos hmle, if_pos hd, ge_iff_le, Bool.or_eq_false_iff,
      decide_eq_false_iff_not, not_le]
    omega
  · simp only [isRateLimited, if_pos hmle, if_neg hd, ge_iff_le, Bool.or_eq_false_iff,
      decide_eq_false_iff_not, not_le]
    omega

/-- Witness for the amended C2: minute token ceiling breached (6000 = tpm),
day counters under their ceilings, minute reset 10 seconds away and not
later than the day reset: after the 10-second wait and a reconciliation the
state is no longer rate limited. -/
theorem C2_witness :
    isRateLimited
        { model := "llama-3.3-70b-versatile", tokensUsedThisMinute := 6000,
          tokensUsedToday := 100, requestsUsedThisMinute := 1, requestsUsedToday := 1,
          minuteResetAt := 1010000, dayResetAt := 4600000 }
        (getLimitsForModel "llama-3.3-70b-versatile") = true ∧
    isRateLimited
        (checkAndResetCounters
          { model := "llama-3.3-70b-versatile", tokensUsedThisMinute := 6000,
            tokensUsedToday := 100, requestsUsedThisMinute := 1, requestsUsedToday := 1,
            minuteResetAt := 1010000, dayResetAt := 4600000 }
          (1000000 + 1000 * (getSecondsUntilReset 1010000 4600000 1000000).toNat) 90000000)
        (getLimitsForModel "llama-3.3-70b-versatile") = false := by
  constructor
  · decide
  · exact C2_wait_sufficient_for_minute_breach
      { model := "llama-3.3-70b-versatile", tokensUsedThisMinute := 6000,
        tokensUsedToday := 100, requestsUsedThisMinute := 1, requestsUsedToday := 1,
        minuteResetAt := 1010000, dayResetAt := 4600000 } 1000000 90000000
      (by decide) (by decide) (by decide) (by decide) (by decide) (by decide)
